import Mathlib

/-!
Shallow embedding of `pytential/qbx/refinement.py` (QBX adaptive refinement
driver): the three refinement-criterion checkers, the stage-1 and stage-2
control loops, and the connection bookkeeping.

Modelling conventions:
* A discretization is opaque to the control loops; we represent it by a
  natural-number identifier (`Discr`).  All geometric data the loops obtain
  from a discretization (element counts, per-element property arrays,
  the tree/peer-list candidate structure consumed by the condition-1 and
  condition-2 kernels) is supplied by an `Env` of functions on `Discr`,
  mirroring the external collaborators (`bind`/`sym` evaluators,
  `build_tree`, `find_peer_lists`, `wrangler.refine`).
* Machine floats are modelled by exact rationals `ℚ`; the external
  `distance(...)` primitive of the area-query kernels is supplied as a
  rational-valued function in the geometry data.
* Refine-flag arrays (`int` 0/1 on device) are `List Bool`.
* Python's `maxiter` is an `ℕ`; a nonpositive Python `maxiter` behaves
  exactly like `0` here (the loop warns on first entry).
-/

namespace QbxRefine

/-- Opaque discretization identifier. -/
abbrev Discr := Nat

/-- Result of one `wrangler.refine` call: `make_refinement_connection`
gives a connection from the old discretization (with the flags that drove
the refinement) to `conn.to_discr`, the new discretization. -/
structure Conn where
  from_discr : Discr
  flags : List Bool
  to_discr : Discr
deriving DecidableEq, Repr

/-- `ChainedDiscretizationConnection(connections, from_discr=...)`. -/
structure ChainedConn where
  connections : List Conn
  from_discr : Discr
deriving DecidableEq, Repr

/-- The data of `_warn_max_iterations(violated_criteria,
expansion_disturbance_tolerance)`: one `RefinerNotConvergedWarning`
carrying the per-iteration violation history and the disturbance
tolerance. -/
structure Warning where
  history : List String
  tolerance : ℚ
deriving DecidableEq, Repr

/-- Following the chain of per-step connections from a starting
discretization: each step replaces the current discretization by the
connection's target (`stageN_density_discr = conn.to_discr`). -/
def chainFrom (d : Discr) : List Conn → Discr
  | [] => d
  | c :: cs => chainFrom c.to_discr cs

/-- `check_element_prop_threshold(element_property, threshold,
refine_flags, ...)`: the loopy kernel sets `refine_flags[e] = 1` for every
element with `element_property[e] > threshold` and sets the scalar
`refine_flags_updated = 1` whenever any element is over the threshold; the
Python wrapper returns `refine_flags_updated == 1`.  Result: the updated
flags and the returned boolean. -/
def check_element_prop_threshold (element_property : List ℚ) (threshold : ℚ)
    (refine_flags : List Bool) : List Bool × Bool :=
  (List.zipWith (fun p f => if threshold < p then true else f)
      element_property refine_flags,
   element_property.any (fun p => decide (threshold < p)))

/-- The geometric inputs of the Condition-1 kernel
(`EXPANSION_DISK_UNDISTURBED_BY_SOURCES_CHECKER`) for one discretization:
the centers (indexed `0 .. ncenters-1`), the owning panel of each center
(the `bsearch(panel_to_center_starts, ..., icenter)` lookup), the sources
listed in each center's candidate leaf boxes (the area-query scan over
`box_to_source_starts/lists`), the center-to-source distances delivered by
the kernel's `distance(...)` primitive, and the per-center danger-zone
radii (`center_danger_zone_radii`). -/
structure Cond1Geometry where
  ncenters : Nat
  centerPanel : Nat → Nat
  candidateSources : Nat → List Nat
  dist : Nat → Nat → ℚ
  radii : Nat → ℚ

/-- Condition-1 per-center test: some source in the center's candidate
boxes has `distance <= (1 - expansion_disturbance_tolerance) *
center_danger_zone_radii[icenter]` (the kernel's `is_close`). -/
def centerViolated (tol : ℚ) (g : Cond1Geometry) (c : Nat) : Bool :=
  (g.candidateSources c).any
    (fun s => decide (g.dist c s ≤ (1 - tol) * g.radii c))

/-- `check_expansion_disks_undisturbed_by_sources`: for every center whose
candidate scan finds a close source, set
`panel_refine_flags[center_panel] = 1` and `*found_panel_to_refine = 1`.
Returns the updated flags and `found_panel_to_refine == 1`. -/
def check_expansion_disks_undisturbed_by_sources (tol : ℚ)
    (g : Cond1Geometry) (refine_flags : List Bool) : List Bool × Bool :=
  ((List.range g.ncenters).foldl
      (fun fl c => if centerViolated tol g c
                   then fl.set (g.centerPanel c) true else fl)
      refine_flags,
   (List.range g.ncenters).any (centerViolated tol g))

/-- The geometric inputs of the Condition-2 kernel
(`SUFFICIENT_SOURCE_QUADRATURE_RESOLUTION_CHECKER`): the sources, the
owning panel of each source (`bsearch(panel_to_source_starts, ..., i)`),
the centers listed in each source's candidate leaf boxes, the
source-to-center distances, and the per-panel danger-zone radii
(`source_danger_zone_radii_by_panel`). -/
structure Cond2Geometry where
  nsources : Nat
  sourcePanel : Nat → Nat
  candidateCenters : Nat → List Nat
  dist : Nat → Nat → ℚ
  radiiByPanel : Nat → ℚ

/-- Condition-2 per-source test: some center in the source's candidate
boxes has `distance <= source_danger_zone_radii_by_panel[my_panel]`. -/
def sourceViolated (g : Cond2Geometry) (s : Nat) : Bool :=
  (g.candidateCenters s).any
    (fun c => decide (g.dist s c ≤ g.radiiByPanel (g.sourcePanel s)))

/-- `check_sufficient_source_quadrature_resolution`: for every source
whose candidate scan finds a close center, set
`panel_refine_flags[my_panel] = 1` and `*found_panel_to_refine = 1`.
Returns the updated flags and `found_panel_to_refine == 1`. -/
def check_sufficient_source_quadrature_resolution (g : Cond2Geometry)
    (refine_flags : List Bool) : List Bool × Bool :=
  ((List.range g.nsources).foldl
      (fun fl s => if sourceViolated g s
                   then fl.set (g.sourcePanel s) true else fl)
      refine_flags,
   (List.range g.nsources).any (sourceViolated g))

/-- `make_empty_refine_flags`: a zero-initialized flag array with one slot
per element of the given discretization. -/
def make_empty_refine_flags (nelements : Nat) : List Bool :=
  List.replicate nelements false

/-- The separator used when the loop joins the iteration's violated
criterion names: `" and ".join(iter_violated_criteria)`. -/
def and_sep : String := " and "

/-- Criterion name recorded by `refine_qbx_stage1` for the kernel length
scale check. -/
def kernel_length_scale_name : String := "kernel length scale"

/-- Criterion name recorded by `refine_qbx_stage1` for the scaled max
curvature check. -/
def curvature_name : String := "curvature"

/-- Criterion name recorded by `refine_qbx_stage1` for the Condition-1
check. -/
def disturbed_expansions_name : String := "disturbed expansions"

/-- Criterion name recorded by `refine_qbx_stage2` for the Condition-2
check. -/
def insufficient_quad_resolution_name : String :=
  "insufficient quadrature resolution"

/-- The external collaborators of the control loops, as functions on the
opaque discretization: element counts (`discr.mesh.nelements`), the bound
symbolic evaluators (`sym._quad_resolution`,
`sym.ElementwiseMax(sym._scaled_max_curvature ...)`), the tree/peer-list
candidate structures the two area-query checkers consume, and the external
refiner plus discretization factory (`wrangler.refine(...).to_discr`). -/
structure Env where
  nelements : Discr → Nat
  quad_resolution : Discr → List ℚ
  scaled_max_curv : Discr → List ℚ
  cond1 : Discr → Cond1Geometry
  cond2 : Discr → Cond2Geometry
  refineTo : Discr → List Bool → Discr

/-- The keyword configuration of `refine_qbx_stage1` (after the
`None`-defaulting prologue has run). -/
structure Stage1Config where
  kernel_length_scale : Option ℚ
  scaled_max_curvature_threshold : Option ℚ
  expansion_disturbance_tolerance : ℚ
  maxiter : Nat

/-- Outcome of one stage-1 loop body after the `niter > maxiter` guard:
the iteration's `iter_violated_criteria`, the refine flags it accumulated,
and whether the tree was built (equivalently, whether the Condition-1
check ran). -/
structure Stage1IterResult where
  violated : List String
  flags : List Bool
  tree_built : Bool
deriving DecidableEq, Repr

/-- One check-running iteration of the `refine_qbx_stage1` loop: fresh
zero flags; the optional kernel-length-scale threshold check appending
`"kernel length scale"` on violation; the optional curvature threshold
check appending `"curvature"`; and, only if `iter_violated_criteria` is
still empty, the tree build plus Condition-1 check appending
`"disturbed expansions"`. -/
def stage1_iteration (env : Env) (cfg : Stage1Config) (d : Discr) :
    Stage1IterResult :=
  let flags0 := make_empty_refine_flags (env.nelements d)
  let step1 :=
    match cfg.kernel_length_scale with
    | none => (([] : List String), flags0)
    | some kls =>
      let r := check_element_prop_threshold (env.quad_resolution d) kls flags0
      (if r.2 then [kernel_length_scale_name] else [], r.1)
  let step2 :=
    match cfg.scaled_max_curvature_threshold with
    | none => step1
    | some t =>
      let r := check_element_prop_threshold (env.scaled_max_curv d) t step1.2
      (step1.1 ++ (if r.2 then [curvature_name] else []), r.1)
  if step2.1.isEmpty then
    let r := check_expansion_disks_undisturbed_by_sources
        cfg.expansion_disturbance_tolerance (env.cond1 d) step2.2
    ⟨if r.2 then [disturbed_expansions_name] else [], r.1, true⟩
  else
    ⟨step2.1, step2.2, false⟩

/-- Final state of a `refine_qbx_stage1` run: the returned discretization
(`stage1_density_discr`), the connection list fed to
`ChainedDiscretizationConnection`, the `violated_criteria` history, the
warning (if `_warn_max_iterations` fired), the number of loop bodies that
ran the criterion checks, and the number of times the Condition-1 check
was evaluated. -/
structure Stage1Result where
  discr : Discr
  connections : List Conn
  violated_criteria : List String
  warning : Option Warning
  niters : Nat
  cond1_evals : Nat

/-- The `while iter_violated_criteria:` loop of `refine_qbx_stage1`,
with `fuel` = number of check-running iterations still allowed before the
`niter > maxiter` guard fires (the guard fires exactly when fuel runs
out, emitting the warning and breaking with the current state). -/
def stage1_go (env : Env) (cfg : Stage1Config) :
    Nat → Discr → List Conn → List String → Nat → Nat → Stage1Result
  | 0, d, conns, hist, niters, c1 =>
      ⟨d, conns, hist,
        some ⟨hist, cfg.expansion_disturbance_tolerance⟩, niters, c1⟩
  | fuel + 1, d, conns, hist, niters, c1 =>
      let it := stage1_iteration env cfg d
      let c1n := c1 + (if it.tree_built then 1 else 0)
      if it.violated.isEmpty then
        ⟨d, conns, hist, none, niters + 1, c1n⟩
      else
        let dn := env.refineTo d it.flags
        stage1_go env cfg fuel dn (conns ++ [⟨d, it.flags, dn⟩])
          (hist ++ [String.intercalate and_sep it.violated]) (niters + 1) c1n

/-- `refine_qbx_stage1`: run the loop from the input density
discretization with empty accumulators. -/
def refine_qbx_stage1 (env : Env) (cfg : Stage1Config)
    (density_discr : Discr) : Stage1Result :=
  stage1_go env cfg cfg.maxiter density_discr [] [] 0 0

/-- The `ChainedDiscretizationConnection(connections,
from_discr=density_discr)` returned by `refine_qbx_stage1`. -/
def stage1_chained_conn (env : Env) (cfg : Stage1Config)
    (density_discr : Discr) : ChainedConn :=
  ⟨(refine_qbx_stage1 env cfg density_discr).connections, density_discr⟩

/-- The keyword configuration of `refine_qbx_stage2` (after the
`None`-defaulting prologue has run). -/
structure Stage2Config where
  expansion_disturbance_tolerance : ℚ
  force_stage2_uniform_refinement_rounds : Nat
  maxiter : Nat

/-- Outcome of one stage-2 loop body after the `niter > maxiter` guard:
stage 2 unconditionally builds the tree and runs the Condition-2 check on
fresh zero flags, appending `"insufficient quadrature resolution"` on
violation. -/
structure Stage2IterResult where
  violated : List String
  flags : List Bool
deriving DecidableEq, Repr

/-- One check-running iteration of the `refine_qbx_stage2` loop. -/
def stage2_iteration (env : Env) (d : Discr) : Stage2IterResult :=
  let flags0 := make_empty_refine_flags (env.nelements d)
  let r := check_sufficient_source_quadrature_resolution (env.cond2 d) flags0
  ⟨if r.2 then [insufficient_quad_resolution_name] else [], r.1⟩

/-- Final state of the stage-2 criterion loop (before the forced uniform
refinement rounds). -/
structure Stage2LoopResult where
  discr : Discr
  connections : List Conn
  violated_criteria : List String
  warning : Option Warning

/-- The `while iter_violated_criteria:` loop of `refine_qbx_stage2`,
fueled like `stage1_go`. -/
def stage2_go (env : Env) (cfg : Stage2Config) :
    Nat → Discr → List Conn → List String → Stage2LoopResult
  | 0, d, conns, hist =>
      ⟨d, conns, hist, some ⟨hist, cfg.expansion_disturbance_tolerance⟩⟩
  | fuel + 1, d, conns, hist =>
      let it := stage2_iteration env d
      if it.violated.isEmpty then ⟨d, conns, hist, none⟩
      else
        let dn := env.refineTo d it.flags
        stage2_go env cfg fuel dn (conns ++ [⟨d, it.flags, dn⟩])
          (hist ++ [String.intercalate and_sep it.violated])

/-- The stage-2 criterion loop run from the stage-1 discretization. -/
def stage2_loop (env : Env) (cfg : Stage2Config) (d : Discr) :
    Stage2LoopResult :=
  stage2_go env cfg cfg.maxiter d [] []

/-- `for round in range(force_stage2_uniform_refinement_rounds)`: each
round refines with an all-ones flag array sized to the then-current
discretization (`np.ones(stage2_density_discr.mesh.nelements)`), appends
the connection, and replaces the discretization. Returns the round
connections in order and the final discretization. -/
def uniform_rounds (env : Env) : Nat → Discr → List Conn × Discr
  | 0, d => ([], d)
  | k + 1, d =>
      let fl := List.replicate (env.nelements d) true
      let dn := env.refineTo d fl
      let r := uniform_rounds env k dn
      (⟨d, fl, dn⟩ :: r.1, r.2)

/-- Final state of a `refine_qbx_stage2` run: returned discretization,
full connection list (criterion-loop connections followed by the uniform
round connections), history, and warning. -/
structure Stage2Result where
  discr : Discr
  connections : List Conn
  violated_criteria : List String
  warning : Option Warning

/-- `refine_qbx_stage2`: the criterion loop, then the forced uniform
refinement rounds, then `ChainedDiscretizationConnection` over all
accumulated connections. -/
def refine_qbx_stage2 (env : Env) (cfg : Stage2Config)
    (stage1_density_discr : Discr) : Stage2Result :=
  let l := stage2_loop env cfg stage1_density_discr
  let u := uniform_rounds env cfg.force_stage2_uniform_refinement_rounds
      l.discr
  ⟨u.2, l.connections ++ u.1, l.violated_criteria, l.warning⟩

/-- The `ChainedDiscretizationConnection(connections,
from_discr=stage1_density_discr)` returned by `refine_qbx_stage2`. -/
def stage2_chained_conn (env : Env) (cfg : Stage2Config)
    (stage1_density_discr : Discr) : ChainedConn :=
  ⟨(refine_qbx_stage2 env cfg stage1_density_discr).connections,
    stage1_density_discr⟩

/-- The string `"kernel length scale and curvature"` produced when both
threshold criteria fire in the same stage-1 iteration. -/
def kernel_and_curvature_name : String :=
  String.intercalate and_sep [kernel_length_scale_name, curvature_name]

/-- All strings that can be appended to `violated_criteria` by a stage-1
iteration. -/
def stage1_criteria_strings : List String :=
  [kernel_length_scale_name, curvature_name, kernel_and_curvature_name,
   disturbed_expansions_name]

/-- All `iter_violated_criteria` lists a stage-1 iteration can produce. -/
def stage1_violated_lists : List (List String) :=
  [[], [kernel_length_scale_name], [curvature_name],
   [kernel_length_scale_name, curvature_name], [disturbed_expansions_name]]

/-- Whether the stage-1 kernel-length-scale check records a violation:
the criterion is configured and some element's quadrature resolution
exceeds it. -/
def stage1_kernel_violation (env : Env) (cfg : Stage1Config) (d : Discr) :
    Bool :=
  match cfg.kernel_length_scale with
  | none => false
  | some t => (env.quad_resolution d).any (fun p => decide (t < p))

/-- Whether the stage-1 curvature check records a violation: the
criterion is configured and some element's scaled max curvature exceeds
it. -/
def stage1_curvature_violation (env : Env) (cfg : Stage1Config) (d : Discr) :
    Bool :=
  match cfg.scaled_max_curvature_threshold with
  | none => false
  | some t => (env.scaled_max_curv d).any (fun p => decide (t < p))

/- Concrete instances used to evaluate the embedding on explicit inputs. -/

/-- A Condition-1 geometry with no centers: its checker can never fire. -/
def empty_cond1 : Cond1Geometry :=
  ⟨0, fun _ => 0, fun _ => [], fun _ _ => 0, fun _ => 0⟩

/-- A Condition-2 geometry with no sources: its checker can never fire. -/
def empty_cond2 : Cond2Geometry :=
  ⟨0, fun _ => 0, fun _ => [], fun _ _ => 0, fun _ => 0⟩

/-- A one-element geometry collection on which no refinement criterion is
ever violated (properties all 0, no centers, no sources). -/
def quiet_env : Env :=
  ⟨fun _ => 1, fun _ => [0], fun _ => [0],
   fun _ => empty_cond1, fun _ => empty_cond2, fun d _ => d + 1⟩

/-- Stage-1 configuration with `maxiter = 0` and no optional criteria. -/
def cfg1_max0 : Stage1Config := ⟨none, none, 0, 0⟩

/-- Stage-1 configuration with `maxiter = 1` and no optional criteria. -/
def cfg1_max1 : Stage1Config := ⟨none, none, 0, 1⟩

/-- Stage-2 configuration with `maxiter = 0` and no uniform rounds. -/
def cfg2_max0 : Stage2Config := ⟨0, 0, 0⟩

/-- Stage-2 configuration with `maxiter = 1` and no uniform rounds. -/
def cfg2_max1 : Stage2Config := ⟨0, 0, 1⟩

/-- Stage-2 configuration with `maxiter = 1` and two forced uniform
refinement rounds. -/
def cfg2_two_rounds : Stage2Config := ⟨0, 2, 1⟩

/-- Stage-2 configuration with `maxiter = 0` and one forced uniform
refinement round. -/
def cfg2_max0_one_round : Stage2Config := ⟨0, 1, 0⟩

/-- A geometry collection whose first discretization (id 0) violates the
kernel-length-scale criterion (quad resolution 1 over threshold 0) and
whose refinements (ids ≥ 1) satisfy it. -/
def c3_env : Env :=
  ⟨fun _ => 1,
   fun d => if d = 0 then [1] else [0],
   fun _ => [0],
   fun _ => empty_cond1, fun _ => empty_cond2,
   fun d _ => d + 1⟩

/-- Stage-1 configuration with only the kernel-length-scale criterion
(threshold 0) enabled. -/
def c3_cfg : Stage1Config := ⟨some 0, none, 0, 10⟩

/-- A geometry collection that violates the kernel-length-scale criterion
(threshold 0) on every discretization: the loop never converges. -/
def always_env : Env :=
  ⟨fun _ => 1, fun _ => [1], fun _ => [0],
   fun _ => empty_cond1, fun _ => empty_cond2, fun d _ => d + 1⟩

/-- Stage-1 configuration with the kernel-length-scale criterion
(threshold 0) enabled and `maxiter = 2`. -/
def always_cfg : Stage1Config := ⟨some 0, none, 0, 2⟩

/-- A one-center Condition-1 geometry whose single candidate source sits
at distance 1 with danger-zone radius 1. -/
def tie_g1 : Cond1Geometry :=
  ⟨1, fun _ => 0, fun _ => [0], fun _ _ => 1, fun _ => 1⟩

/-- A one-source Condition-2 geometry whose single candidate center sits
at distance 1 with per-panel danger-zone radius 1. -/
def tie_g2 : Cond2Geometry :=
  ⟨1, fun _ => 0, fun _ => [0], fun _ _ => 1, fun _ => 1⟩

end QbxRefine

namespace QbxRefine

/- List-level helper lemmas. -/

theorem list_ext_getD {l1 l2 : List Bool} (h : l1.length = l2.length)
    (he : ∀ i, i < l1.length → l1.getD i false = l2.getD i false) :
    l1 = l2 := by
  apply List.ext_getElem h
  intro i h1 h2
  have hi := he i h1
  rwa [List.getD_eq_getElem _ _ h1, List.getD_eq_getElem _ _ h2] at hi

theorem getD_set_self (l : List Bool) (i : Nat) (h : i < l.length) :
    (l.set i true).getD i false = true := by
  rw [List.getD_eq_getElem _ _ (by simpa using h), List.getElem_set_self]

theorem getD_set_ne (l : List Bool) (i j : Nat) (h : i ≠ j) :
    (l.set i true).getD j false = l.getD j false := by
  rcases Nat.lt_or_ge j l.length with hj | hj
  · rw [List.getD_eq_getElem _ _ (by simpa using hj),
      List.getD_eq_getElem _ _ hj, List.getElem_set_ne h]
  · rw [List.getD_eq_default _ _ (by simpa using hj),
      List.getD_eq_default _ _ hj]

theorem foldl_set_length (P : Nat → Bool) (f : Nat → Nat) :
    ∀ (cs : List Nat) (fl : List Bool),
    (cs.foldl (fun a c => if P c then a.set (f c) true else a) fl).length
      = fl.length := by
  intro cs
  induction cs with
  | nil => intro fl; rfl
  | cons c cs ih =>
    intro fl
    by_cases h : P c <;> simp [h, ih]

theorem foldl_set_getD (P : Nat → Bool) (f : Nat → Nat) :
    ∀ (cs : List Nat) (fl : List Bool) (p : Nat), p < fl.length →
    (cs.foldl (fun a c => if P c then a.set (f c) true else a) fl).getD p false
      = (fl.getD p false || cs.any (fun c => (f c == p) && P c)) := by
  intro cs
  induction cs with
  | nil => intro fl p _; simp
  | cons c cs ih =>
    intro fl p hp
    by_cases hP : P c
    · simp only [List.foldl_cons, if_pos hP]
      rw [ih (fl.set (f c) true) p (by simpa using hp)]
      by_cases hfc : f c = p
      · subst hfc
        rw [getD_set_self fl (f c) hp]
        simp [hP]
      · rw [getD_set_ne fl (f c) p hfc]
        have hb : (f c == p) = false := beq_eq_false_iff_ne.mpr hfc
        simp [hP, hb]
    · simp only [List.foldl_cons, if_neg hP]
      rw [ih fl p hp]
      simp [hP]

theorem foldl_set_id (P : Nat → Bool) (f : Nat → Nat) :
    ∀ (cs : List Nat) (fl : List Bool), (∀ c ∈ cs, P c = false) →
    cs.foldl (fun a c => if P c then a.set (f c) true else a) fl = fl := by
  intro cs
  induction cs with
  | nil => intro fl _; rfl
  | cons c cs ih =>
    intro fl hall
    have hc : P c = false := hall c (by simp)
    simp only [List.foldl_cons, hc, if_neg (by simp [hc] : ¬ P c = true)]
    exact ih fl (fun x hx => hall x (by simp [hx]))

theorem zipWith_if_getD (T : ℚ) :
    ∀ (P : List ℚ) (fl : List Bool) (e : Nat), e < P.length → e < fl.length →
    (List.zipWith (fun p f => if T < p then true else f) P fl).getD e false
      = if T < P.getD e 0 then true else fl.getD e false := by
  intro P
  induction P with
  | nil => intro fl e h _; simp at h
  | cons p P ih =>
    intro fl e hP hfl
    cases fl with
    | nil => simp at hfl
    | cons f fl =>
      cases e with
      | zero => simp
      | succ e =>
        simpa using ih fl e (by simpa using hP) (by simpa using hfl)

theorem zipWith_or_getD (T : ℚ) (P : List ℚ) (fl : List Bool) (e : Nat)
    (hP : e < P.length) (hfl : e < fl.length) :
    (List.zipWith (fun p f => if T < p then true else f) P fl).getD e false
      = (fl.getD e false || decide (T < P.getD e 0)) := by
  rw [zipWith_if_getD T P fl e hP hfl]
  by_cases h : T < P.getD e 0 <;> simp [h, Bool.or_comm]

theorem zipWith_if_id (T : ℚ) :
    ∀ (P : List ℚ) (fl : List Bool), fl.length = P.length →
    (P.any (fun p => decide (T < p))) = false →
    List.zipWith (fun p f => if T < p then true else f) P fl = fl := by
  intro P
  induction P with
  | nil => intro fl h _; simpa using List.length_eq_zero.mp h
  | cons p P ih =>
    intro fl hlen hany
    cases fl with
    | nil => simp at hlen
    | cons f fl =>
      simp only [List.any_cons, Bool.or_eq_false_iff] at hany
      have hnp : ¬ T < p := by simpa using hany.1
      simp only [List.zipWith_cons_cons, if_neg hnp]
      rw [ih fl (by simpa using hlen) hany.2]

/- Characterizations of the three checkers. -/

theorem cept_snd (P : List ℚ) (T : ℚ) (fl : List Bool) :
    (check_element_prop_threshold P T fl).2
      = P.any (fun p => decide (T < p)) := rfl

theorem cept_length (P : List ℚ) (T : ℚ) (fl : List Bool)
    (h : fl.length = P.length) :
    (check_element_prop_threshold P T fl).1.length = fl.length := by
  simp [check_element_prop_threshold, h]

theorem cept_getD (P : List ℚ) (T : ℚ) (fl : List Bool)
    (h : fl.length = P.length) (e : Nat) (he : e < fl.length) :
    (check_element_prop_threshold P T fl).1.getD e false
      = if T < P.getD e 0 then true else fl.getD e false :=
  zipWith_if_getD T P fl e (h ▸ he) he

theorem cept_or (P : List ℚ) (T : ℚ) (fl : List Bool) (e : Nat)
    (hP : e < P.length) (hfl : e < fl.length) :
    (check_element_prop_threshold P T fl).1.getD e false
      = (fl.getD e false || decide (T < P.getD e 0)) :=
  zipWith_or_getD T P fl e hP hfl

theorem cept_idem (T : ℚ) :
    ∀ (P : List ℚ) (fl : List Bool),
    (check_element_prop_threshold P T
        (check_element_prop_threshold P T fl).1).1
      = (check_element_prop_threshold P T fl).1 := by
  intro P
  induction P with
  | nil => intro fl; rfl
  | cons p P ih =>
    intro fl
    cases fl with
    | nil => rfl
    | cons f fl =>
      by_cases h : T < p <;>
        simpa [check_element_prop_threshold, h] using ih fl

theorem cedu_snd (tol : ℚ) (g : Cond1Geometry) (fl : List Bool) :
    (check_expansion_disks_undisturbed_by_sources tol g fl).2
      = (List.range g.ncenters).any (centerViolated tol g) := rfl

theorem cedu_length (tol : ℚ) (g : Cond1Geometry) (fl : List Bool) :
    (check_expansion_disks_undisturbed_by_sources tol g fl).1.length
      = fl.length :=
  foldl_set_length (centerViolated tol g) g.centerPanel
    (List.range g.ncenters) fl

theorem cedu_getD (tol : ℚ) (g : Cond1Geometry) (fl : List Bool) (p : Nat)
    (hp : p < fl.length) :
    (check_expansion_disks_undisturbed_by_sources tol g fl).1.getD p false
      = (fl.getD p false ||
          (List.range g.ncenters).any
            (fun c => (g.centerPanel c == p) && centerViolated tol g c)) :=
  foldl_set_getD (centerViolated tol g) g.centerPanel
    (List.range g.ncenters) fl p hp

theorem cedu_id (tol : ℚ) (g : Cond1Geometry) (fl : List Bool)
    (h : (check_expansion_disks_undisturbed_by_sources tol g fl).2 = false) :
    (check_expansion_disks_undisturbed_by_sources tol g fl).1 = fl := by
  rw [cedu_snd] at h
  exact foldl_set_id (centerViolated tol g) g.centerPanel
    (List.range g.ncenters) fl (by simpa [List.any_eq_false] using h)

theorem cssqr_snd (g : Cond2Geometry) (fl : List Bool) :
    (check_sufficient_source_quadrature_resolution g fl).2
      = (List.range g.nsources).any (sourceViolated g) := rfl

theorem cssqr_length (g : Cond2Geometry) (fl : List Bool) :
    (check_sufficient_source_quadrature_resolution g fl).1.length
      = fl.length :=
  foldl_set_length (sourceViolated g) g.sourcePanel
    (List.range g.nsources) fl

theorem cssqr_getD (g : Cond2Geometry) (fl : List Bool) (p : Nat)
    (hp : p < fl.length) :
    (check_sufficient_source_quadrature_resolution g fl).1.getD p false
      = (fl.getD p false ||
          (List.range g.nsources).any
            (fun s => (g.sourcePanel s == p) && sourceViolated g s)) :=
  foldl_set_getD (sourceViolated g) g.sourcePanel
    (List.range g.nsources) fl p hp

theorem cssqr_id (g : Cond2Geometry) (fl : List Bool)
    (h : (check_sufficient_source_quadrature_resolution g fl).2 = false) :
    (check_sufficient_source_quadrature_resolution g fl).1 = fl := by
  rw [cssqr_snd] at h
  exact foldl_set_id (sourceViolated g) g.sourcePanel
    (List.range g.nsources) fl (by simpa [List.any_eq_false] using h)

/- Connection-chain helper lemmas. -/

theorem chainFrom_append (xs ys : List Conn) :
    ∀ (d : Discr), chainFrom d (xs ++ ys) = chainFrom (chainFrom d xs) ys := by
  induction xs with
  | nil => intro d; rfl
  | cons c cs ih => intro d; simpa [chainFrom] using ih c.to_discr

/- Stage-1 iteration lemmas. -/

theorem stage1_iteration_tree_built (env : Env) (cfg : Stage1Config)
    (d : Discr) :
    (stage1_iteration env cfg d).tree_built
      = (!stage1_kernel_violation env cfg d
          && !stage1_curvature_violation env cfg d) := by
  unfold stage1_iteration stage1_kernel_violation stage1_curvature_violation
  rcases cfg.kernel_length_scale with _ | kls <;>
    rcases cfg.scaled_max_curvature_threshold with _ | ct
  · simp
  · by_cases hc : ((env.scaled_max_curv d).any fun p => decide (ct < p)) = true <;>
      simp [check_element_prop_threshold, hc]
  · by_cases hk : ((env.quad_resolution d).any fun p => decide (kls < p)) = true <;>
      simp [check_element_prop_threshold, hk]
  · by_cases hk : ((env.quad_resolution d).any fun p => decide (kls < p)) = true <;>
      by_cases hc : ((env.scaled_max_curv d).any fun p => decide (ct < p)) = true <;>
      simp [check_element_prop_threshold, hk, hc]

theorem stage1_iteration_violated_cases (env : Env) (cfg : Stage1Config)
    (d : Discr) :
    (stage1_iteration env cfg d).violated ∈ stage1_violated_lists := by
  unfold stage1_iteration stage1_violated_lists
  rcases cfg.kernel_length_scale with _ | kls <;>
    rcases cfg.scaled_max_curvature_threshold with _ | ct <;>
    simp only [check_element_prop_threshold] <;>
    split_ifs <;> simp_all

/- Stage-1 loop lemmas, by induction on the remaining fuel. -/

theorem stage1_go_conn_le (env : Env) (cfg : Stage1Config) :
    ∀ (fuel : Nat) (d : Discr) (conns : List Conn) (hist : List String)
      (n c1 : Nat),
    (stage1_go env cfg fuel d conns hist n c1).connections.length
      ≤ conns.length + fuel := by
  intro fuel
  induction fuel with
  | zero => intro d conns hist n c1; simp [stage1_go]
  | succ fuel ih =>
    intro d conns hist n c1
    simp only [stage1_go]
    by_cases h : (stage1_iteration env cfg d).violated.isEmpty
    · simp [h]
    · have := ih (env.refineTo d (stage1_iteration env cfg d).flags)
        (conns ++ [⟨d, (stage1_iteration env cfg d).flags,
          env.refineTo d (stage1_iteration env cfg d).flags⟩])
        (hist ++ [String.intercalate and_sep
          (stage1_iteration env cfg d).violated])
        (n + 1) (c1 + (if (stage1_iteration env cfg d).tree_built then 1 else 0))
      simp only [h, if_false, Bool.false_eq_true] at this ⊢
      simp only [List.length_append, List.length_cons, List.length_nil] at this
      omega

theorem stage1_go_warning_iff (env : Env) (cfg : Stage1Config) :
    ∀ (fuel : Nat) (d : Discr) (conns : List Conn) (hist : List String)
      (n c1 : Nat),
    ((stage1_go env cfg fuel d conns hist n c1).warning.isSome = true
      ↔ (stage1_go env cfg fuel d conns hist n c1).connections.length
          = conns.length + fuel) := by
  intro fuel
  induction fuel with
  | zero => intro d conns hist n c1; simp [stage1_go]
  | succ fuel ih =>
    intro d conns hist n c1
    simp only [stage1_go]
    by_cases h : (stage1_iteration env cfg d).violated.isEmpty
    · simp only [h, if_true]
      simp only [Option.isSome_none]
      constructor
      · intro hfalse; exact absurd hfalse (by simp)
      · intro hlen; omega
    · have := ih (env.refineTo d (stage1_iteration env cfg d).flags)
        (conns ++ [⟨d, (stage1_iteration env cfg d).flags,
          env.refineTo d (stage1_iteration env cfg d).flags⟩])
        (hist ++ [String.intercalate and_sep
          (stage1_iteration env cfg d).violated])
        (n + 1) (c1 + (if (stage1_iteration env cfg d).tree_built then 1 else 0))
      simp only [h, if_false, Bool.false_eq_true] at this ⊢
      rw [this]
      simp only [List.length_append, List.length_cons, List.length_nil]
      omega

theorem stage1_go_hist_len (env : Env) (cfg : Stage1Config) :
    ∀ (fuel : Nat) (d : Discr) (conns : List Conn) (hist : List String)
      (n c1 : Nat), hist.length = conns.length →
    (stage1_go env cfg fuel d conns hist n c1).violated_criteria.length
      = (stage1_go env cfg fuel d conns hist n c1).connections.length := by
  intro fuel
  induction fuel with
  | zero => intro d conns hist n c1 h; simpa [stage1_go] using h
  | succ fuel ih =>
    intro d conns hist n c1 h
    simp only [stage1_go]
    by_cases hv : (stage1_iteration env cfg d).violated.isEmpty
    · simpa [hv] using h
    · simp only [hv, if_false, Bool.false_eq_true]
      exact ih _ _ _ _ _ (by simp [h])

theorem stage1_go_discr (env : Env) (cfg : Stage1Config) :
    ∀ (fuel : Nat) (d : Discr) (conns : List Conn) (hist : List String)
      (n c1 : Nat) (d0 : Discr), chainFrom d0 conns = d →
    (stage1_go env cfg fuel d conns hist n c1).discr
      = chainFrom d0 (stage1_go env cfg fuel d conns hist n c1).connections := by
  intro fuel
  induction fuel with
  | zero => intro d conns hist n c1 d0 h; simpa [stage1_go] using h.symm
  | succ fuel ih =>
    intro d conns hist n c1 d0 h
    simp only [stage1_go]
    by_cases hv : (stage1_iteration env cfg d).violated.isEmpty
    · simpa [hv] using h.symm
    · simp only [hv, if_false, Bool.false_eq_true]
      apply ih
      rw [chainFrom_append, h]
      rfl

theorem stage1_go_warning_val (env : Env) (cfg : Stage1Config) :
    ∀ (fuel : Nat) (d : Discr) (conns : List Conn) (hist : List String)
      (n c1 : Nat) (w : Warning),
    (stage1_go env cfg fuel d conns hist n c1).warning = some w →
    w.history = (stage1_go env cfg fuel d conns hist n c1).violated_criteria
    ∧ w.tolerance = cfg.expansion_disturbance_tolerance := by
  intro fuel
  induction fuel with
  | zero =>
    intro d conns hist n c1 w h
    simp only [stage1_go] at h ⊢
    cases h
    exact ⟨rfl, rfl⟩
  | succ fuel ih =>
    intro d conns hist n c1 w h
    simp only [stage1_go] at h ⊢
    by_cases hv : (stage1_iteration env cfg d).violated.isEmpty
    · rw [if_pos hv] at h
      exact absurd h (by simp)
    · rw [if_neg hv] at h ⊢
      exact ih _ _ _ _ _ _ h

theorem stage1_go_hist_mem (env : Env) (cfg : Stage1Config) :
    ∀ (fuel : Nat) (d : Discr) (conns : List Conn) (hist : List String)
      (n c1 : Nat) (s : String),
    s ∈ (stage1_go env cfg fuel d conns hist n c1).violated_criteria →
    s ∈ hist ∨ s ∈ stage1_criteria_strings := by
  intro fuel
  induction fuel with
  | zero => intro d conns hist n c1 s h; exact Or.inl (by simpa [stage1_go] using h)
  | succ fuel ih =>
    intro d conns hist n c1 s h
    simp only [stage1_go] at h
    by_cases hv : (stage1_iteration env cfg d).violated.isEmpty
    · rw [if_pos hv] at h
      exact Or.inl h
    · rw [if_neg hv] at h
      rcases ih _ _ _ _ _ _ h with hin | hin
      · rcases List.mem_append.mp hin with hin2 | hin2
        · exact Or.inl hin2
        · right
          have hcase := stage1_iteration_violated_cases env cfg d
          have hs : s = String.intercalate and_sep
              (stage1_iteration env cfg d).violated := by
            simpa using hin2
          subst hs
          unfold stage1_violated_lists at hcase
          simp only [List.mem_cons, List.not_mem_nil, or_false] at hcase
          rcases hcase with h1 | h1 | h1 | h1 | h1
          · exact absurd (by simp [h1]) hv
          · rw [h1]
            simp only [stage1_criteria_strings, List.mem_cons]
            left; decide
          · rw [h1]
            simp only [stage1_criteria_strings, List.mem_cons]
            right; left; decide
          · rw [h1]
            simp only [stage1_criteria_strings, kernel_and_curvature_name,
              List.mem_cons]
            right; right; left; trivial
          · rw [h1]
            simp only [stage1_criteria_strings, List.mem_cons]
            right; right; right; left; decide
      · exact Or.inr hin

/- Stage-2 loop lemmas. -/

theorem stage2_go_conn_le (env : Env) (cfg : Stage2Config) :
    ∀ (fuel : Nat) (d : Discr) (conns : List Conn) (hist : List String),
    (stage2_go env cfg fuel d conns hist).connections.length
      ≤ conns.length + fuel := by
  intro fuel
  induction fuel with
  | zero => intro d conns hist; simp [stage2_go]
  | succ fuel ih =>
    intro d conns hist
    simp only [stage2_go]
    by_cases h : (stage2_iteration env d).violated.isEmpty
    · simp [h]
    · have := ih (env.refineTo d (stage2_iteration env d).flags)
        (conns ++ [⟨d, (stage2_iteration env d).flags,
          env.refineTo d (stage2_iteration env d).flags⟩])
        (hist ++ [String.intercalate and_sep (stage2_iteration env d).violated])
      simp only [h, if_false, Bool.false_eq_true] at this ⊢
      simp only [List.length_append, List.length_cons, List.length_nil] at this
      omega

theorem stage2_go_warning_iff (env : Env) (cfg : Stage2Config) :
    ∀ (fuel : Nat) (d : Discr) (conns : List Conn) (hist : List String),
    ((stage2_go env cfg fuel d conns hist).warning.isSome = true
      ↔ (stage2_go env cfg fuel d conns hist).connections.length
          = conns.length + fuel) := by
  intro fuel
  induction fuel with
  | zero => intro d conns hist; simp [stage2_go]
  | succ fuel ih =>
    intro d conns hist
    simp only [stage2_go]
    by_cases h : (stage2_iteration env d).violated.isEmpty
    · simp only [h, if_true, Option.isSome_none]
      constructor
      · intro hfalse; exact absurd hfalse (by simp)
      · intro hlen; omega
    · have := ih (env.refineTo d (stage2_iteration env d).flags)
        (conns ++ [⟨d, (stage2_iteration env d).flags,
          env.refineTo d (stage2_iteration env d).flags⟩])
        (hist ++ [String.intercalate and_sep (stage2_iteration env d).violated])
      simp only [h, if_false, Bool.false_eq_true] at this ⊢
      rw [this]
      simp only [List.length_append, List.length_cons, List.length_nil]
      omega

theorem stage2_go_hist_len (env : Env) (cfg : Stage2Config) :
    ∀ (fuel : Nat) (d : Discr) (conns : List Conn) (hist : List String),
    hist.length = conns.length →
    (stage2_go env cfg fuel d conns hist).violated_criteria.length
      = (stage2_go env cfg fuel d conns hist).connections.length := by
  intro fuel
  induction fuel with
  | zero => intro d conns hist h; simpa [stage2_go] using h
  | succ fuel ih =>
    intro d conns hist h
    simp only [stage2_go]
    by_cases hv : (stage2_iteration env d).violated.isEmpty
    · simpa [hv] using h
    · simp only [hv, if_false, Bool.false_eq_true]
      exact ih _ _ _ (by simp [h])

theorem stage2_go_discr (env : Env) (cfg : Stage2Config) :
    ∀ (fuel : Nat) (d : Discr) (conns : List Conn) (hist : List String)
      (d0 : Discr), chainFrom d0 conns = d →
    (stage2_go env cfg fuel d conns hist).discr
      = chainFrom d0 (stage2_go env cfg fuel d conns hist).connections := by
  intro fuel
  induction fuel with
  | zero => intro d conns hist d0 h; simpa [stage2_go] using h.symm
  | succ fuel ih =>
    intro d conns hist d0 h
    simp only [stage2_go]
    by_cases hv : (stage2_iteration env d).violated.isEmpty
    · simpa [hv] using h.symm
    · simp only [hv, if_false, Bool.false_eq_true]
      apply ih
      rw [chainFrom_append, h]
      rfl

theorem stage2_go_warning_val (env : Env) (cfg : Stage2Config) :
    ∀ (fuel : Nat) (d : Discr) (conns : List Conn) (hist : List String)
      (w : Warning),
    (stage2_go env cfg fuel d conns hist).warning = some w →
    w.history = (stage2_go env cfg fuel d conns hist).violated_criteria
    ∧ w.tolerance = cfg.expansion_disturbance_tolerance := by
  intro fuel
  induction fuel with
  | zero =>
    intro d conns hist w h
    simp only [stage2_go] at h ⊢
    cases h
    exact ⟨rfl, rfl⟩
  | succ fuel ih =>
    intro d conns hist w h
    simp only [stage2_go] at h ⊢
    by_cases hv : (stage2_iteration env d).violated.isEmpty
    · rw [if_pos hv] at h
      exact absurd h (by simp)
    · rw [if_neg hv] at h ⊢
      exact ih _ _ _ _ h

/- Uniform refinement round lemmas. -/

theorem uniform_rounds_length (env : Env) :
    ∀ (k : Nat) (d : Discr), (uniform_rounds env k d).1.length = k := by
  intro k
  induction k with
  | zero => intro d; rfl
  | succ k ih => intro d; simp [uniform_rounds, ih]

theorem uniform_rounds_flags (env : Env) :
    ∀ (k : Nat) (d : Discr), ∀ c ∈ (uniform_rounds env k d).1,
    c.flags = List.replicate (env.nelements c.from_discr) true
    ∧ c.to_discr = env.refineTo c.from_discr c.flags := by
  intro k
  induction k with
  | zero => intro d c hc; simp [uniform_rounds] at hc
  | succ k ih =>
    intro d c hc
    simp only [uniform_rounds, List.mem_cons] at hc
    rcases hc with hc | hc
    · subst hc; exact ⟨rfl, rfl⟩
    · exact ih _ c hc

theorem uniform_rounds_chain (env : Env) :
    ∀ (k : Nat) (d : Discr),
    chainFrom d (uniform_rounds env k d).1 = (uniform_rounds env k d).2 := by
  intro k
  induction k with
  | zero => intro d; rfl
  | succ k ih => intro d; simpa [uniform_rounds, chainFrom] using ih _

theorem getD_true_lt (l : List Bool) (e : Nat) (h : l.getD e false = true) :
    e < l.length := by
  by_contra hge
  rw [List.getD_eq_default _ _ (Nat.le_of_not_lt hge)] at h
  exact Bool.false_ne_true h

/- Claim theorems. -/

/-- C2: in the Condition-1 checker, a panel's flag ends up set exactly
when it was already set or some center it owns has a candidate source
within `(1 - tolerance) * radius` of it; a source exactly at that
distance counts as a violation (less-or-equal, not strictly-less); and
the Condition-2 checker applies the same ≤ tie-break with the source and
center roles swapped (per-panel radius around the source). -/
theorem claim_c2 (tol : ℚ) (g1 : Cond1Geometry) (g2 : Cond2Geometry)
    (fl1 fl2 : List Bool) (p q : Nat)
    (hp : p < fl1.length) (hq : q < fl2.length) :
    ((check_expansion_disks_undisturbed_by_sources tol g1 fl1).1.getD p false
      = (fl1.getD p false ||
          (List.range g1.ncenters).any
            (fun c => (g1.centerPanel c == p) && centerViolated tol g1 c)))
    ∧ (∀ c s, s ∈ g1.candidateSources c →
        g1.dist c s = (1 - tol) * g1.radii c →
        centerViolated tol g1 c = true)
    ∧ ((check_sufficient_source_quadrature_resolution g2 fl2).1.getD q false
      = (fl2.getD q false ||
          (List.range g2.nsources).any
            (fun s => (g2.sourcePanel s == q) && sourceViolated g2 s)))
    ∧ (∀ s c, c ∈ g2.candidateCenters s →
        g2.dist s c = g2.radiiByPanel (g2.sourcePanel s) →
        sourceViolated g2 s = true) := by
  refine ⟨cedu_getD tol g1 fl1 p hp, ?_, cssqr_getD g2 fl2 q hq, ?_⟩
  · intro c s hs hd
    unfold centerViolated
    rw [List.any_eq_true]
    exact ⟨s, hs, by rw [hd]; simp⟩
  · intro s c hc hd
    unfold sourceViolated
    rw [List.any_eq_true]
    exact ⟨c, hc, by rw [hd]; simp⟩

/-- C2 witness: the tie-break conjuncts evaluated at one-center and
one-source geometries whose single candidate sits exactly at the
danger-zone distance. -/
theorem claim_c2_witness :
    (0 < ([false] : List Bool).length)
    ∧ centerViolated 0 tie_g1 0 = true
    ∧ sourceViolated tie_g2 0 = true :=
  ⟨by decide,
   (claim_c2 0 tie_g1 tie_g2 [false] [false] 0 0 (by decide)
       (by decide)).2.1 0 0 (by decide) (by simp [tie_g1]),
   (claim_c2 0 tie_g1 tie_g2 [false] [false] 0 0 (by decide)
       (by decide)).2.2.2 0 0 (by decide) (by simp [tie_g2])⟩

/-- C4: the threshold checker sets flag `e` exactly for `P[e] > T`
(strict), changes no other entry, preserves the length; it is a pure
function of its inputs (the same inputs always give the same output) and
is idempotent on its own output. -/
theorem claim_c4 (P : List ℚ) (T : ℚ) (fl : List Bool)
    (h : fl.length = P.length) :
    (∀ e, e < fl.length →
      (check_element_prop_threshold P T fl).1.getD e false
        = if T < P.getD e 0 then true else fl.getD e false)
    ∧ (check_element_prop_threshold P T fl).1.length = fl.length
    ∧ check_element_prop_threshold P T fl = check_element_prop_threshold P T fl
    ∧ (check_element_prop_threshold P T
        (check_element_prop_threshold P T fl).1).1
      = (check_element_prop_threshold P T fl).1 :=
  ⟨fun e he => cept_getD P T fl h e he, cept_length P T fl h, rfl,
   cept_idem T P fl⟩

/-- C4 witness: the elementwise formula and the idempotence evaluated at
`P = [5, 1]`, `T = 3`, starting flags `[false, true]`. -/
theorem claim_c4_witness :
    (([false, true] : List Bool).length = [(5 : ℚ), 1].length)
    ∧ (check_element_prop_threshold [(5 : ℚ), 1] 3 [false, true]).1.getD 0 false
        = (if (3 : ℚ) < [(5 : ℚ), 1].getD 0 0 then true
           else ([false, true] : List Bool).getD 0 false)
    ∧ (check_element_prop_threshold [(5 : ℚ), 1] 3
        (check_element_prop_threshold [(5 : ℚ), 1] 3 [false, true]).1).1
      = (check_element_prop_threshold [(5 : ℚ), 1] 3 [false, true]).1 :=
  ⟨rfl, (claim_c4 [(5 : ℚ), 1] 3 [false, true] rfl).1 0 (by decide),
   (claim_c4 [(5 : ℚ), 1] 3 [false, true] rfl).2.2.2⟩

/-- C5 counterexample: with a pre-set flag, the threshold checker and the
Condition-1 checker both return `true` although no flag entry changed
from 0 to 1 (the flags are `[true]` before and after the call), refuting
the claim that the boolean is true only if some flag was newly set. -/
theorem claim_c5_counterexample :
    ((check_element_prop_threshold [(5 : ℚ)] 3 [true]).2 = true
      ∧ (check_element_prop_threshold [(5 : ℚ)] 3 [true]).1 = [true])
    ∧ ((check_expansion_disks_undisturbed_by_sources 0 tie_g1 [true]).2 = true
      ∧ (check_expansion_disks_undisturbed_by_sources 0 tie_g1 [true]).1
        = [true]) := by
  refine ⟨⟨by decide, by decide⟩, ?_, ?_⟩
  · rw [cedu_snd, show List.range tie_g1.ncenters = [0] by decide]
    simp [centerViolated, tie_g1]
  · unfold check_expansion_disks_undisturbed_by_sources
    rw [show List.range tie_g1.ncenters = [0] by decide]
    by_cases h : centerViolated 0 tie_g1 0 = true <;>
      simp [h, show tie_g1.centerPanel 0 = 0 from rfl, List.set]

/-- C5 (amended): each evaluator's boolean reports whether some element,
center or source violates its criterion during that call, regardless of
whether the corresponding flag was already set beforehand; when the
boolean is false the flags are returned unchanged (so a newly set flag
implies a true result, but a true result need not set a new flag). -/
theorem claim_c5_amended (P : List ℚ) (T tol : ℚ)
    (g1 : Cond1Geometry) (g2 : Cond2Geometry) (fl fl1 fl2 : List Bool) :
    ((check_element_prop_threshold P T fl).2
      = P.any (fun p => decide (T < p)))
    ∧ ((check_expansion_disks_undisturbed_by_sources tol g1 fl1).2
      = (List.range g1.ncenters).any (centerViolated tol g1))
    ∧ ((check_sufficient_source_quadrature_resolution g2 fl2).2
      = (List.range g2.nsources).any (sourceViolated g2))
    ∧ (fl.length = P.length →
        (check_element_prop_threshold P T fl).2 = false →
        (check_element_prop_threshold P T fl).1 = fl)
    ∧ ((check_expansion_disks_undisturbed_by_sources tol g1 fl1).2 = false →
        (check_expansion_disks_undisturbed_by_sources tol g1 fl1).1 = fl1)
    ∧ ((check_sufficient_source_quadrature_resolution g2 fl2).2 = false →
        (check_sufficient_source_quadrature_resolution g2 fl2).1 = fl2) :=
  ⟨rfl, rfl, rfl,
   fun h h2 => zipWith_if_id T P fl h (by simpa [cept_snd] using h2),
   cedu_id tol g1 fl1, cssqr_id g2 fl2⟩

/-- C5 amended witness: when the boolean is false the flags come back
unchanged, at concrete below-threshold and empty-geometry inputs. -/
theorem claim_c5_amended_witness :
    (check_element_prop_threshold [(1 : ℚ)] 2 [false]).1 = [false]
    ∧ (check_expansion_disks_undisturbed_by_sources 0 empty_cond1
        [false]).1 = [false] :=
  ⟨(claim_c5_amended [(1 : ℚ)] 2 0 empty_cond1 empty_cond2 [false] [false]
      [false]).2.2.2.1 rfl (by decide),
   (claim_c5_amended [(1 : ℚ)] 2 0 empty_cond1 empty_cond2 [false] [false]
      [false]).2.2.2.2.1 (by decide)⟩

/-- C7: within one iteration every checker only ever writes `true` into
the flag vector — an already-set flag is never cleared — and the checkers
pairwise commute, so evaluating them in any order over the same inputs
produces the same final flags vector. -/
theorem claim_c7 (P1 P2 : List ℚ) (T1 T2 tol : ℚ)
    (g1 : Cond1Geometry) (g2 : Cond2Geometry) (fl : List Bool)
    (h1 : fl.length = P1.length) (h2 : fl.length = P2.length) :
    (∀ e, fl.getD e false = true →
      (check_element_prop_threshold P1 T1 fl).1.getD e false = true)
    ∧ (∀ e, fl.getD e false = true →
      (check_expansion_disks_undisturbed_by_sources tol g1 fl).1.getD e false
        = true)
    ∧ (∀ e, fl.getD e false = true →
      (check_sufficient_source_quadrature_resolution g2 fl).1.getD e false
        = true)
    ∧ ((check_element_prop_threshold P2 T2
          (check_element_prop_threshold P1 T1 fl).1).1
      = (check_element_prop_threshold P1 T1
          (check_element_prop_threshold P2 T2 fl).1).1)
    ∧ ((check_expansion_disks_undisturbed_by_sources tol g1
          (check_element_prop_threshold P1 T1 fl).1).1
      = (check_element_prop_threshold P1 T1
          (check_expansion_disks_undisturbed_by_sources tol g1 fl).1).1)
    ∧ ((check_sufficient_source_quadrature_resolution g2
          (check_expansion_disks_undisturbed_by_sources tol g1 fl).1).1
      = (check_expansion_disks_undisturbed_by_sources tol g1
          (check_sufficient_source_quadrature_resolution g2 fl).1).1) := by
  have len1 : (check_element_prop_threshold P1 T1 fl).1.length = fl.length :=
    cept_length P1 T1 fl h1
  have len2 : (check_element_prop_threshold P2 T2 fl).1.length = fl.length :=
    cept_length P2 T2 fl h2
  refine ⟨?_, ?_, ?_, ?_, ?_, ?_⟩
  · intro e he
    have hel := getD_true_lt fl e he
    rw [cept_or P1 T1 fl e (h1 ▸ hel) hel, he]
    simp
  · intro e he
    have hel := getD_true_lt fl e he
    rw [cedu_getD tol g1 fl e hel, he]
    simp
  · intro e he
    have hel := getD_true_lt fl e he
    rw [cssqr_getD g2 fl e hel, he]
    simp
  · apply list_ext_getD
    · rw [cept_length P2 T2 _ (by rw [len1, h2]), len1,
        cept_length P1 T1 _ (by rw [len2, h1]), len2]
    · intro i hi
      rw [cept_length P2 T2 _ (by rw [len1, h2]), len1] at hi
      rw [cept_or P2 T2 _ i (h2 ▸ hi) (by rw [len1]; exact hi),
        cept_or P1 T1 fl i (h1 ▸ hi) hi,
        cept_or P1 T1 _ i (h1 ▸ hi) (by rw [len2]; exact hi),
        cept_or P2 T2 fl i (h2 ▸ hi) hi]
      simp [Bool.or_assoc, Bool.or_comm, Bool.or_left_comm]
  · apply list_ext_getD
    · rw [cedu_length, len1,
        cept_length P1 T1 _ (by rw [cedu_length]; exact h1), cedu_length]
    · intro i hi
      rw [cedu_length, len1] at hi
      rw [cedu_getD tol g1 _ i (by rw [len1]; exact hi),
        cept_or P1 T1 fl i (h1 ▸ hi) hi,
        cept_or P1 T1 _ i (h1 ▸ hi) (by rw [cedu_length]; exact hi),
        cedu_getD tol g1 fl i hi]
      simp [Bool.or_assoc, Bool.or_comm, Bool.or_left_comm]
  · apply list_ext_getD
    · rw [cssqr_length, cedu_length, cedu_length, cssqr_length]
    · intro i hi
      rw [cssqr_length, cedu_length] at hi
      rw [cssqr_getD g2 _ i (by rw [cedu_length]; exact hi),
        cedu_getD tol g1 fl i hi,
        cedu_getD tol g1 _ i (by rw [cssqr_length]; exact hi),
        cssqr_getD g2 fl i hi]
      simp [Bool.or_assoc, Bool.or_comm, Bool.or_left_comm]

/-- C7 witness: a set flag survives a threshold check and the
threshold/Condition-1 evaluation order does not change the flags, at
concrete one-element inputs. -/
theorem claim_c7_witness :
    (([true] : List Bool).length = [(5 : ℚ)].length)
    ∧ (check_element_prop_threshold [(5 : ℚ)] 3 [true]).1.getD 0 false = true
    ∧ (check_expansion_disks_undisturbed_by_sources 0 tie_g1
          (check_element_prop_threshold [(5 : ℚ)] 3 [true]).1).1
      = (check_element_prop_threshold [(5 : ℚ)] 3
          (check_expansion_disks_undisturbed_by_sources 0 tie_g1 [true]).1).1 :=
  ⟨rfl,
   (claim_c7 [(5 : ℚ)] [(0 : ℚ)] 3 3 0 tie_g1 tie_g2 [true] rfl rfl).1 0
     (by decide),
   (claim_c7 [(5 : ℚ)] [(0 : ℚ)] 3 3 0 tie_g1 tie_g2 [true] rfl
     rfl).2.2.2.2.1⟩

/-- C3: in each stage-1 iteration the spatial index is built and the
Condition-1 check runs exactly when neither the kernel-length-scale
check nor the curvature check recorded a violation in that iteration;
and there is a run in which Condition 1 is evaluated in strictly fewer
iterations than the loop performed. -/
theorem claim_c3 :
    (∀ (env : Env) (cfg : Stage1Config) (d : Discr),
      (stage1_iteration env cfg d).tree_built
        = (!stage1_kernel_violation env cfg d
            && !stage1_curvature_violation env cfg d))
    ∧ (∃ (env : Env) (cfg : Stage1Config) (d : Discr),
        (refine_qbx_stage1 env cfg d).cond1_evals
          < (refine_qbx_stage1 env cfg d).niters) :=
  ⟨stage1_iteration_tree_built, ⟨c3_env, c3_cfg, 0, by decide⟩⟩

/-- C1 counterexample: with `maxiter = 0` on a geometry collection where
no criterion is ever violated (the same configuration with `maxiter = 1`
converges immediately, performing no refinement), both loops still emit
the non-convergence warning, with an empty violation history and without
evaluating any criterion — refuting "a RefinerNotConvergedWarning is
signaled if and only if a criterion was still violated at that bound". -/
theorem claim_c1_counterexample :
    ((refine_qbx_stage1 quiet_env cfg1_max0 0).warning.isSome = true
      ∧ (refine_qbx_stage1 quiet_env cfg1_max0 0).violated_criteria = []
      ∧ (refine_qbx_stage1 quiet_env cfg1_max0 0).niters = 0
      ∧ (refine_qbx_stage1 quiet_env cfg1_max1 0).warning = none
      ∧ (refine_qbx_stage1 quiet_env cfg1_max1 0).connections = [])
    ∧ ((stage2_loop quiet_env cfg2_max0 0).warning.isSome = true
      ∧ (stage2_loop quiet_env cfg2_max0 0).violated_criteria = []
      ∧ (stage2_loop quiet_env cfg2_max1 0).warning = none
      ∧ (stage2_loop quiet_env cfg2_max1 0).connections = []) := by
  decide

/-- C1 (amended): each loop performs at most `maxiter` refinement
applications, and the warning is signaled iff exactly `maxiter`
refinements were applied — for `maxiter ≥ 1` that means the iteration at
the bound still recorded a violated criterion, while for `maxiter = 0`
it holds vacuously and the warning fires although no criterion was
evaluated.  The warning carries the violation history and the
disturbance tolerance, and each loop exits with the last-reached
discretization (the input chained through every applied connection, not
rolled back). -/
theorem claim_c1 (env : Env) (cfg1 : Stage1Config) (cfg2 : Stage2Config)
    (d1 d2 : Discr) :
    ((refine_qbx_stage1 env cfg1 d1).connections.length ≤ cfg1.maxiter)
    ∧ ((refine_qbx_stage1 env cfg1 d1).warning.isSome = true
        ↔ (refine_qbx_stage1 env cfg1 d1).connections.length = cfg1.maxiter)
    ∧ (∀ w, (refine_qbx_stage1 env cfg1 d1).warning = some w →
        w.history = (refine_qbx_stage1 env cfg1 d1).violated_criteria
        ∧ w.tolerance = cfg1.expansion_disturbance_tolerance)
    ∧ ((refine_qbx_stage1 env cfg1 d1).discr
        = chainFrom d1 (refine_qbx_stage1 env cfg1 d1).connections)
    ∧ ((stage2_loop env cfg2 d2).connections.length ≤ cfg2.maxiter)
    ∧ ((stage2_loop env cfg2 d2).warning.isSome = true
        ↔ (stage2_loop env cfg2 d2).connections.length = cfg2.maxiter)
    ∧ (∀ w, (stage2_loop env cfg2 d2).warning = some w →
        w.history = (stage2_loop env cfg2 d2).violated_criteria
        ∧ w.tolerance = cfg2.expansion_disturbance_tolerance)
    ∧ ((stage2_loop env cfg2 d2).discr
        = chainFrom d2 (stage2_loop env cfg2 d2).connections) := by
  refine ⟨?_, ?_, ?_, ?_, ?_, ?_, ?_, ?_⟩
  · simpa using stage1_go_conn_le env cfg1 cfg1.maxiter d1 [] [] 0 0
  · simpa using stage1_go_warning_iff env cfg1 cfg1.maxiter d1 [] [] 0 0
  · intro w hw
    exact stage1_go_warning_val env cfg1 cfg1.maxiter d1 [] [] 0 0 w hw
  · exact stage1_go_discr env cfg1 cfg1.maxiter d1 [] [] 0 0 d1 rfl
  · simpa using stage2_go_conn_le env cfg2 cfg2.maxiter d2 [] []
  · simpa using stage2_go_warning_iff env cfg2 cfg2.maxiter d2 [] []
  · intro w hw
    exact stage2_go_warning_val env cfg2 cfg2.maxiter d2 [] [] w hw
  · exact stage2_go_discr env cfg2 cfg2.maxiter d2 [] [] d2 rfl

/-- C1 witness: a run that always violates the kernel-length-scale
criterion with `maxiter = 2` warns with the two-entry history and
performed exactly two refinement applications. -/
theorem claim_c1_witness :
    ((refine_qbx_stage1 always_env always_cfg 0).warning
      = some ⟨[kernel_length_scale_name, kernel_length_scale_name], 0⟩)
    ∧ ((⟨[kernel_length_scale_name, kernel_length_scale_name], (0 : ℚ)⟩ :
          Warning).history
        = (refine_qbx_stage1 always_env always_cfg 0).violated_criteria)
    ∧ (refine_qbx_stage1 always_env always_cfg 0).connections.length = 2 :=
  ⟨by decide,
   ((claim_c1 always_env always_cfg cfg2_max0 0 0).2.2.1 _ (by decide)).1,
   (claim_c1 always_env always_cfg cfg2_max0 0 0).2.1.mp (by decide)⟩

/-- C6: after the stage-2 criterion loop exits, exactly
`force_stage2_uniform_refinement_rounds` additional unconditional
refinements are performed, each flagging every element of the
then-current discretization, with no re-evaluation of any criterion (the
recorded criteria and warning are unchanged), and their connections are
included, in order after the loop connections, in the returned chained
connection. -/
theorem claim_c6 (env : Env) (cfg : Stage2Config) (d : Discr) :
    ((refine_qbx_stage2 env cfg d).connections
      = (stage2_loop env cfg d).connections
        ++ (uniform_rounds env cfg.force_stage2_uniform_refinement_rounds
            (stage2_loop env cfg d).discr).1)
    ∧ ((uniform_rounds env cfg.force_stage2_uniform_refinement_rounds
          (stage2_loop env cfg d).discr).1.length
        = cfg.force_stage2_uniform_refinement_rounds)
    ∧ (∀ c ∈ (uniform_rounds env cfg.force_stage2_uniform_refinement_rounds
          (stage2_loop env cfg d).discr).1,
        c.flags = List.replicate (env.nelements c.from_discr) true
        ∧ c.to_discr = env.refineTo c.from_discr c.flags)
    ∧ ((refine_qbx_stage2 env cfg d).violated_criteria
        = (stage2_loop env cfg d).violated_criteria)
    ∧ ((refine_qbx_stage2 env cfg d).warning
        = (stage2_loop env cfg d).warning)
    ∧ ((refine_qbx_stage2 env cfg d).discr
        = chainFrom (stage2_loop env cfg d).discr
            (uniform_rounds env cfg.force_stage2_uniform_refinement_rounds
              (stage2_loop env cfg d).discr).1)
    ∧ (stage2_chained_conn env cfg d
        = ⟨(refine_qbx_stage2 env cfg d).connections, d⟩) :=
  ⟨rfl, uniform_rounds_length env _ _, uniform_rounds_flags env _ _,
   rfl, rfl, (uniform_rounds_chain env _ _).symm, rfl⟩

/-- C6 witness: with two forced uniform rounds on an already-converged
geometry, the second round's connection flags all elements of its
starting discretization. -/
theorem claim_c6_witness :
    ((⟨1, [true], 2⟩ : Conn) ∈ (uniform_rounds quiet_env
        cfg2_two_rounds.force_stage2_uniform_refinement_rounds
        (stage2_loop quiet_env cfg2_two_rounds 0).discr).1)
    ∧ (⟨1, [true], 2⟩ : Conn).flags
      = List.replicate
          (quiet_env.nelements (⟨1, [true], 2⟩ : Conn).from_discr) true :=
  ⟨by decide,
   ((claim_c6 quiet_env cfg2_two_rounds 0).2.2.1 _ (by decide)).1⟩

/-- C8: if no criterion is violated on the first iteration (and at least
one iteration is allowed), stage 1 returns the input discretization
itself, unchanged, with a chained connection built from an empty
connection list whose `from_discr` is that same discretization; stage 2
behaves the same way when additionally no uniform refinement rounds are
forced. -/
theorem claim_c8 (env : Env) (cfg1 : Stage1Config) (cfg2 : Stage2Config)
    (d : Discr)
    (h1 : (stage1_iteration env cfg1 d).violated = [])
    (hm1 : 1 ≤ cfg1.maxiter)
    (h2 : (stage2_iteration env d).violated = [])
    (hm2 : 1 ≤ cfg2.maxiter)
    (hk : cfg2.force_stage2_uniform_refinement_rounds = 0) :
    ((refine_qbx_stage1 env cfg1 d).discr = d
      ∧ (refine_qbx_stage1 env cfg1 d).connections = []
      ∧ (refine_qbx_stage1 env cfg1 d).warning = none
      ∧ stage1_chained_conn env cfg1 d = ⟨[], d⟩)
    ∧ ((refine_qbx_stage2 env cfg2 d).discr = d
      ∧ (refine_qbx_stage2 env cfg2 d).connections = []
      ∧ (refine_qbx_stage2 env cfg2 d).warning = none
      ∧ stage2_chained_conn env cfg2 d = ⟨[], d⟩) := by
  obtain ⟨m1, hm1e⟩ : ∃ m, cfg1.maxiter = m + 1 :=
    ⟨cfg1.maxiter - 1, by omega⟩
  obtain ⟨m2, hm2e⟩ : ∃ m, cfg2.maxiter = m + 1 :=
    ⟨cfg2.maxiter - 1, by omega⟩
  have hr1 : refine_qbx_stage1 env cfg1 d
      = ⟨d, [], [], none, 1,
          (if (stage1_iteration env cfg1 d).tree_built then 1 else 0)⟩ := by
    unfold refine_qbx_stage1
    rw [hm1e]
    simp [stage1_go, h1]
  have hl2 : stage2_loop env cfg2 d = ⟨d, [], [], none⟩ := by
    unfold stage2_loop
    rw [hm2e]
    simp [stage2_go, h2]
  have hr2 : refine_qbx_stage2 env cfg2 d = ⟨d, [], [], none⟩ := by
    unfold refine_qbx_stage2
    rw [hl2, hk]
    rfl
  refine ⟨⟨?_, ?_, ?_, ?_⟩, ⟨?_, ?_, ?_, ?_⟩⟩ <;>
    simp [stage1_chained_conn, stage2_chained_conn, hr1, hr2]

/-- C8 witness: on the quiet geometry with `maxiter = 1` and no forced
rounds, both stages return the input discretization with an identity
chained connection. -/
theorem claim_c8_witness :
    ((stage1_iteration quiet_env cfg1_max1 0).violated = []
      ∧ 1 ≤ cfg1_max1.maxiter
      ∧ (stage2_iteration quiet_env 0).violated = []
      ∧ 1 ≤ cfg2_max1.maxiter
      ∧ cfg2_max1.force_stage2_uniform_refinement_rounds = 0)
    ∧ (refine_qbx_stage1 quiet_env cfg1_max1 0).discr = 0
    ∧ stage1_chained_conn quiet_env cfg1_max1 0 = ⟨[], 0⟩
    ∧ stage2_chained_conn quiet_env cfg2_max1 0 = ⟨[], 0⟩ :=
  ⟨⟨by decide, by decide, by decide, by decide, rfl⟩,
   ((claim_c8 quiet_env cfg1_max1 cfg2_max1 0 (by decide) (by decide)
      (by decide) (by decide) rfl).1).1,
   ((claim_c8 quiet_env cfg1_max1 cfg2_max1 0 (by decide) (by decide)
      (by decide) (by decide) rfl).1).2.2.2,
   ((claim_c8 quiet_env cfg1_max1 cfg2_max1 0 (by decide) (by decide)
      (by decide) (by decide) rfl).2).2.2.2⟩

/-- C9 counterexample: with `maxiter = 0` and one forced uniform
refinement round, `refine_qbx_stage2` emits the warning but still
applies a refinement (one connection, all elements flagged) and returns
a new discretization, not the input — refuting "apply no refinement, and
return the input discretization unchanged" for `refine_qbx_stage2`. -/
theorem claim_c9_counterexample :
    (refine_qbx_stage2 quiet_env cfg2_max0_one_round 0).warning.isSome = true
    ∧ (refine_qbx_stage2 quiet_env cfg2_max0_one_round 0).connections.length
        = 1
    ∧ (refine_qbx_stage2 quiet_env cfg2_max0_one_round 0).discr = 1
    ∧ (refine_qbx_stage2 quiet_env cfg2_max0_one_round 0).discr ≠ 0 := by
  decide

/-- C9 (amended): with `maxiter = 0` (the embedding of a nonpositive
Python `maxiter`), each loop emits the non-convergence warning with an
empty violated-criteria history on the first pass, evaluates no
criterion, and applies no refinement; `refine_qbx_stage1` returns the
input discretization unchanged, while `refine_qbx_stage2` still performs
its forced uniform refinement rounds after the warning — so it returns
the input unchanged exactly when no such rounds are configured. -/
theorem claim_c9 (env : Env) (cfg1 : Stage1Config) (cfg2 : Stage2Config)
    (d : Discr) (hm1 : cfg1.maxiter = 0) (hm2 : cfg2.maxiter = 0) :
    refine_qbx_stage1 env cfg1 d
      = ⟨d, [], [], some ⟨[], cfg1.expansion_disturbance_tolerance⟩, 0, 0⟩
    ∧ stage2_loop env cfg2 d
      = ⟨d, [], [], some ⟨[], cfg2.expansion_disturbance_tolerance⟩⟩
    ∧ refine_qbx_stage2 env cfg2 d
      = ⟨(uniform_rounds env
            cfg2.force_stage2_uniform_refinement_rounds d).2,
          (uniform_rounds env
            cfg2.force_stage2_uniform_refinement_rounds d).1,
          [], some ⟨[], cfg2.expansion_disturbance_tolerance⟩⟩
    ∧ (cfg2.force_stage2_uniform_refinement_rounds = 0 →
        refine_qbx_stage2 env cfg2 d
          = ⟨d, [], [],
              some ⟨[], cfg2.expansion_disturbance_tolerance⟩⟩) := by
  have hl : stage2_loop env cfg2 d
      = ⟨d, [], [], some ⟨[], cfg2.expansion_disturbance_tolerance⟩⟩ := by
    unfold stage2_loop
    rw [hm2]
    rfl
  have hs2 : refine_qbx_stage2 env cfg2 d
      = ⟨(uniform_rounds env
            cfg2.force_stage2_uniform_refinement_rounds d).2,
          (uniform_rounds env
            cfg2.force_stage2_uniform_refinement_rounds d).1,
          [], some ⟨[], cfg2.expansion_disturbance_tolerance⟩⟩ := by
    unfold refine_qbx_stage2
    rw [hl]
    simp
  refine ⟨?_, hl, hs2, ?_⟩
  · unfold refine_qbx_stage1
    rw [hm1]
    rfl
  · intro hk
    rw [hs2, hk]
    rfl

/-- C9 witness: the `maxiter = 0` behavior evaluated on the quiet
geometry collection, both with one forced uniform round and with
none. -/
theorem claim_c9_witness :
    cfg1_max0.maxiter = 0 ∧ cfg2_max0_one_round.maxiter = 0
    ∧ cfg2_max0.maxiter = 0
    ∧ refine_qbx_stage1 quiet_env cfg1_max0 0
      = ⟨0, [], [], some ⟨[], cfg1_max0.expansion_disturbance_tolerance⟩,
          0, 0⟩
    ∧ refine_qbx_stage2 quiet_env cfg2_max0_one_round 0
      = ⟨(uniform_rounds quiet_env
            cfg2_max0_one_round.force_stage2_uniform_refinement_rounds 0).2,
          (uniform_rounds quiet_env
            cfg2_max0_one_round.force_stage2_uniform_refinement_rounds 0).1,
          [], some ⟨[],
            cfg2_max0_one_round.expansion_disturbance_tolerance⟩⟩
    ∧ refine_qbx_stage2 quiet_env cfg2_max0 0
      = ⟨0, [], [],
          some ⟨[], cfg2_max0.expansion_disturbance_tolerance⟩⟩ :=
  ⟨rfl, rfl, rfl,
   (claim_c9 quiet_env cfg1_max0 cfg2_max0_one_round 0 rfl rfl).1,
   (claim_c9 quiet_env cfg1_max0 cfg2_max0_one_round 0 rfl rfl).2.2.1,
   (claim_c9 quiet_env cfg1_max0 cfg2_max0 0 rfl rfl).2.2.2 rfl⟩

/-- C10: stage 1 appends exactly one history entry per applied
refinement — the names of that iteration's violated criteria joined by
`" and "` in the fixed order kernel length scale, curvature, disturbed
expansions — so the violation history, also as carried by the
non-convergence warning, always has length equal to the number of
refinement applications performed. -/
theorem claim_c10 (env : Env) (cfg : Stage1Config) (d : Discr) :
    ((refine_qbx_stage1 env cfg d).violated_criteria.length
      = (refine_qbx_stage1 env cfg d).connections.length)
    ∧ (∀ s ∈ (refine_qbx_stage1 env cfg d).violated_criteria,
        s ∈ stage1_criteria_strings)
    ∧ ((stage1_iteration env cfg d).violated ∈ stage1_violated_lists)
    ∧ (∀ w, (refine_qbx_stage1 env cfg d).warning = some w →
        w.history.length
          = (refine_qbx_stage1 env cfg d).connections.length) := by
  refine ⟨stage1_go_hist_len env cfg cfg.maxiter d [] [] 0 0 rfl, ?_,
    stage1_iteration_violated_cases env cfg d, ?_⟩
  · intro s hs
    rcases stage1_go_hist_mem env cfg cfg.maxiter d [] [] 0 0 s hs with h | h
    · simp at h
    · exact h
  · intro w hw
    have hv := stage1_go_warning_val env cfg cfg.maxiter d [] [] 0 0 w hw
    rw [hv.1]
    exact stage1_go_hist_len env cfg cfg.maxiter d [] [] 0 0 rfl

/-- C10 witness: in the always-violating two-iteration run, the history
carried by the warning has length equal to the two applied
refinements. -/
theorem claim_c10_witness :
    ((refine_qbx_stage1 always_env always_cfg 0).warning
      = some ⟨[kernel_length_scale_name, kernel_length_scale_name],
          (0 : ℚ)⟩)
    ∧ (⟨[kernel_length_scale_name, kernel_length_scale_name], (0 : ℚ)⟩ :
          Warning).history.length
      = (refine_qbx_stage1 always_env always_cfg 0).connections.length :=
  ⟨by decide, (claim_c10 always_env always_cfg 0).2.2.2 _ (by decide)⟩

end QbxRefine
